import Mathlib

/-!
Shallow embedding of the audio-isolation video pipeline
(`src/app/api/process-audio/route.ts` and `src/lib/s3.ts`).

Pure functions of the source are translated directly; the stateful /
effectful parts (HTTP fetches, S3 puts, the ElevenLabs call, `setTimeout`
sleeps, `Date.now()`) are modelled as oracles gathered in an `Env`
structure, and the handlers become pure functions of the request and the
environment that additionally report the trace of external calls they
perform.  Thrown JavaScript exceptions are modelled with `Except`; the
JavaScript value `undefined` thrown by `retry` when it never runs its loop
is modelled as `Option.none`.
-/

/-- Character-list core of JavaScript `String.prototype.includes`:
`charsContain needle hay` is `true` iff `needle` occurs as a contiguous
run inside `hay`. -/
def charsContain (needle : List Char) : List Char → Bool
  | [] => needle.isEmpty
  | c :: rest => needle.isPrefixOf (c :: rest) || charsContain needle rest

/-- JavaScript `hay.includes(needle)` on strings. -/
def strIncludes (hay needle : String) : Bool :=
  charsContain needle.data hay.data

/-- JavaScript truthiness of a possibly-absent string form field or JSON
field: `null`/`undefined` and the empty string are falsy. -/
def truthyStr : Option String → Bool
  | none => false
  | some s => !s.isEmpty

/-- JavaScript `v || dflt` for a possibly-absent string `v` (used for
`statusData.error || 'Job processing failed'`). -/
def jsOr (v : Option String) (dflt : String) : String :=
  match v with
  | none => dflt
  | some s => if s.isEmpty then dflt else s

/-- Character-list core of JavaScript `str.split(sep)` for a
single-character separator: split at every occurrence of `sep`;
the empty string yields one empty group, like JS `''.split('.')`. -/
def splitOnChar (sep : Char) : List Char → List (List Char)
  | [] => [[]]
  | c :: rest =>
    if c = sep then [] :: splitOnChar sep rest
    else
      match splitOnChar sep rest with
      | [] => [[c]]
      | g :: gs => (c :: g) :: gs

/-- JavaScript `s.split(sep)` for a one-character separator. -/
def jsSplit (s : String) (sep : Char) : List String :=
  (splitOnChar sep s.data).map String.mk

/-- ASCII case of JavaScript `toLowerCase` on one character (the handler
only lowercases file extensions, which are ASCII). -/
def asciiLowerChar (c : Char) : Char :=
  if 'A' ≤ c ∧ c ≤ 'Z' then Char.ofNat (c.toNat + 32) else c

/-- JavaScript `s.toLowerCase()` restricted to ASCII letters. -/
def asciiLower (s : String) : String :=
  String.mk (s.data.map asciiLowerChar)

/-- JavaScript `s.replace(/\.[^\/.]+$/, '')`: drop a trailing dot followed
by one or more characters none of which is a dot or a slash. -/
def stripExt (s : String) : String :=
  let rev := s.data.reverse
  let p := rev.takeWhile (fun c => c ≠ '.' && c ≠ '/')
  let r := rev.dropWhile (fun c => c ≠ '.' && c ≠ '/')
  match r with
  | '.' :: rest => if p.isEmpty then s else String.mk rest.reverse
  | _ => s

/-! ## Object store client (`src/lib/s3.ts`) -/

/-- Configuration read by `s3.ts` from the process environment:
`S3_BUCKET_NAME` and `AWS_REGION`. -/
structure S3Config where
  bucketName : String
  region : String
deriving DecidableEq

/-- Model of the `PutObjectCommand` constructed by `uploadToS3`. -/
structure PutObjectCommand where
  bucket : String
  key : String
  body : List Nat
  contentType : String
deriving DecidableEq

/-- Command built by `uploadToS3(fileBuffer, fileName)` in `s3.ts`: the key
is always `processed-audio/` ++ `fileName` and the content type is always
the literal `'audio/wav'`; the function takes no content-type parameter. -/
def uploadToS3Command (cfg : S3Config) (fileBuffer : List Nat) (fileName : String) :
    PutObjectCommand :=
  { bucket := cfg.bucketName
    key := "processed-audio/" ++ fileName
    body := fileBuffer
    contentType := "audio/wav" }

/-- Public URL returned by `uploadToS3(fileBuffer, fileName)` in `s3.ts`. -/
def uploadToS3Url (cfg : S3Config) (fileName : String) : String :=
  "https://" ++ cfg.bucketName ++ ".s3." ++ cfg.region ++
    ".amazonaws.com/processed-audio/" ++ fileName

/-! ## Retry decorator (`retry` in `route.ts`, lines 109-131) -/

/-- Trace of one run of the `retry` helper: its outcome (an `Except.error`
carries the thrown JavaScript value, where `none` models a thrown
`undefined`), the number of times the wrapped operation was invoked, and
the list of sleep durations performed between invocations. -/
structure RetryTrace (ε α : Type) where
  result : Except (Option ε) α
  calls : Nat
  delays : List Nat

/-- Loop of `retry`: `fuel` is the number of remaining attempts
(`retries - attempt + 1`), `attempt` the 1-based attempt counter, `le` the
current `lastError`.  Fuel `1` is the final attempt (`attempt === retries`):
on failure the loop breaks and throws the last error without sleeping;
with more fuel a failure sleeps `D` and retries. -/
def retryAux {ε α : Type} (op : Nat → Except ε α) (D : Nat) :
    Nat → Nat → Option ε → RetryTrace ε α
  | 0, _, le => ⟨Except.error le, 0, []⟩
  | 1, attempt, _ =>
    match op attempt with
    | Except.ok v => ⟨Except.ok v, 1, []⟩
    | Except.error e => ⟨Except.error (some e), 1, []⟩
  | (m + 2), attempt, _ =>
    match op attempt with
    | Except.ok v => ⟨Except.ok v, 1, []⟩
    | Except.error e =>
      ⟨(retryAux op D (m + 1) (attempt + 1) (some e)).result,
       (retryAux op D (m + 1) (attempt + 1) (some e)).calls + 1,
       D :: (retryAux op D (m + 1) (attempt + 1) (some e)).delays⟩

/-- The `retry` helper of `route.ts`: `for (attempt = 1; attempt <= retries; ...)`
with `lastError` initially `undefined`; a non-positive `retries` runs the
loop zero times and throws `undefined`. -/
def retry {ε α : Type} (op : Nat → Except ε α) (retries : Int) (D : Nat) :
    RetryTrace ε α :=
  retryAux op D retries.toNat 1 none

theorem retryAux_ok {ε α : Type} (op : Nat → Except ε α) (D : Nat) (f : Nat → ε) (v : α) :
    ∀ (k n attempt : Nat) (le : Option ε), k < n →
      (∀ i, attempt ≤ i → i < attempt + k → op i = Except.error (f i)) →
      op (attempt + k) = Except.ok v →
      retryAux op D n attempt le = ⟨Except.ok v, k + 1, List.replicate k D⟩ := by
  intro k
  induction k with
  | zero =>
    intro n attempt le hk hf hok
    rw [Nat.add_zero] at hok
    match n, hk with
    | 1, _ => simp [retryAux, hok]
    | (m + 2), _ => simp [retryAux, hok]
  | succ k ih =>
    intro n attempt le hk hf hok
    obtain ⟨m, rfl⟩ : ∃ m, n = m + 2 := ⟨n - 2, by omega⟩
    have h0 : op attempt = Except.error (f attempt) :=
      hf attempt (le_refl _) (by omega)
    have hok' : op (attempt + 1 + k) = Except.ok v := by
      rw [show attempt + 1 + k = attempt + (k + 1) from by omega]; exact hok
    have ht := ih (m + 1) (attempt + 1) (some (f attempt)) (by omega)
      (fun i h1 h2 => hf i (by omega) (by omega)) hok'
    simp [retryAux, h0, ht, List.replicate]

theorem retryAux_allFail {ε α : Type} (op : Nat → Except ε α) (D : Nat) (f : Nat → ε) :
    ∀ (n attempt : Nat) (le : Option ε), 1 ≤ n →
      (∀ i, attempt ≤ i → i < attempt + n → op i = Except.error (f i)) →
      retryAux op D n attempt le
        = ⟨Except.error (some (f (attempt + n - 1))), n, List.replicate (n - 1) D⟩ := by
  intro n
  induction n with
  | zero => intro attempt le h; omega
  | succ n ih =>
    intro attempt le _ hf
    have h0 : op attempt = Except.error (f attempt) :=
      hf attempt (le_refl _) (by omega)
    cases n with
    | zero => simp [retryAux, h0]
    | succ p =>
      have ht := ih (attempt + 1) (some (f attempt)) (by omega)
        (fun i h1 h2 => hf i (by omega) (by omega))
      have harith : attempt + 1 + (p + 1) - 1 = attempt + (p + 1 + 1) - 1 := by omega
      rw [harith] at ht
      simp [retryAux, h0, ht, List.replicate]

/-- Claim C2: for an operation handed to `retry` with retry count `N ≥ 1`
and delay `D`, (1) if the operation fails on attempts `1..k` with `k < N`
and succeeds on attempt `k+1`, `retry` returns the success value after
exactly `k+1` invocations with exactly `k` sleeps of length `D` between
them; (2) if the operation fails on every one of the `N` attempts, `retry`
invokes it exactly `N` times and re-raises the last failure. -/
theorem retry_call_and_delay_counts {ε α : Type} (N D : Nat) (hN : 1 ≤ N) :
    (∀ (op : Nat → Except ε α) (f : Nat → ε) (k : Nat) (v : α),
        k < N →
        (∀ i, 1 ≤ i → i ≤ k → op i = Except.error (f i)) →
        op (k + 1) = Except.ok v →
        retry op (N : Int) D = ⟨Except.ok v, k + 1, List.replicate k D⟩)
    ∧ (∀ (op : Nat → Except ε α) (f : Nat → ε),
        (∀ i, 1 ≤ i → i ≤ N → op i = Except.error (f i)) →
        retry op (N : Int) D
          = ⟨Except.error (some (f N)), N, List.replicate (N - 1) D⟩) := by
  constructor
  · intro op f k v hk hf hok
    unfold retry
    rw [Int.toNat_natCast]
    exact retryAux_ok op D f v k N 1 none hk
      (fun i h1 h2 => hf i h1 (by omega))
      (by rw [show (1 : Nat) + k = k + 1 from by omega]; exact hok)
  · intro op f hf
    unfold retry
    rw [Int.toNat_natCast]
    have := retryAux_allFail op D f N 1 none hN
      (fun i h1 h2 => hf i h1 (by omega))
    rw [show 1 + N - 1 = N from by omega] at this
    exact this

/-- Witness for C2 at a concrete operation: failing twice then succeeding
with `N = 3`, and always failing with `N = 3`. -/
theorem retry_call_and_delay_counts_witness :
    retry (fun i => if i ≤ 2 then Except.error (toString i) else Except.ok 42)
        (3 : Int) 5000
      = ⟨Except.ok 42, 3, List.replicate 2 5000⟩
    ∧ retry (fun i => (Except.error (toString i) : Except String Nat)) (3 : Int) 5000
      = ⟨Except.error (some "3"), 3, List.replicate 2 5000⟩ := by
  refine ⟨?_, ?_⟩
  · exact (retry_call_and_delay_counts 3 5000 (by decide)).1
      (fun i => if i ≤ 2 then Except.error (toString i) else Except.ok 42)
      (fun i => toString i) 2 42 (by decide) (fun i h1 h2 => by interval_cases i <;> rfl)
      (by rfl)
  · exact (retry_call_and_delay_counts 3 5000 (by decide)).2
      (fun i => (Except.error (toString i) : Except String Nat))
      (fun i => toString i) (fun i h1 h2 => rfl)

/-- Claim C10: calling `retry` with `retries ≤ 0` never enters the loop
body, so the operation is invoked zero times and the function throws the
initial `lastError`, i.e. the non-`Error` value `undefined` (modelled as
`none`). -/
theorem retry_nonpositive_retries {ε α : Type} (op : Nat → Except ε α)
    (retries : Int) (D : Nat) (h : retries ≤ 0) :
    retry op retries D = ⟨Except.error none, 0, []⟩ := by
  unfold retry
  rw [Int.toNat_of_nonpos h]
  rfl

/-- Witness for C10 at `retries = -2`. -/
theorem retry_nonpositive_retries_witness :
    retry (fun _ => (Except.error "boom" : Except String Nat)) (-2) 5000
      = ⟨Except.error none, 0, []⟩ :=
  retry_nonpositive_retries _ (-2) 5000 (by decide)

/-- Claim C5 (code bug): `uploadToS3` prepends the literal
`processed-audio/` to every key it is given, so the caller's logical path
`original-videos/{ts}-original-{name}` is stored under
`processed-audio/original-videos/...` and the returned URL carries the
same extra prefix; the object is not stored under the key `logicalPath`
and the URL is not `https://{bucket}.{storage-domain}/{logicalPath}`. -/
theorem uploadToS3_key_double_prefix :
    (uploadToS3Command ⟨"bkt", "us-east-1"⟩ [1, 2]
        "original-videos/1700-original-clip.mp4").key
      = "processed-audio/original-videos/1700-original-clip.mp4"
    ∧ (uploadToS3Command ⟨"bkt", "us-east-1"⟩ [1, 2]
        "original-videos/1700-original-clip.mp4").key
      ≠ "original-videos/1700-original-clip.mp4"
    ∧ uploadToS3Url ⟨"bkt", "us-east-1"⟩ "original-videos/1700-original-clip.mp4"
      ≠ "https://bkt.s3.us-east-1.amazonaws.com/original-videos/1700-original-clip.mp4"
    ∧ uploadToS3Url ⟨"bkt", "us-east-1"⟩ "original-videos/1700-original-clip.mp4"
      = "https://bkt.s3.us-east-1.amazonaws.com/processed-audio/original-videos/1700-original-clip.mp4" := by
  refine ⟨rfl, by decide, by decide, rfl⟩

/-- Claim C9: every object stored through `uploadToS3` is written with
content type `'audio/wav'`, for every configuration, payload and file
name — the function has no content-type parameter at all (its arguments
are exactly the byte buffer and the file name). -/
theorem uploadToS3_contentType_always_wav (cfg : S3Config) (buf : List Nat)
    (name : String) :
    (uploadToS3Command cfg buf name).contentType = "audio/wav" := rfl

/-! ## Job poller (`pollJobStatus` in `route.ts`, lines 38-96) -/

/-- Parsed body of one Modal status response (`ModalResponse` in
`route.ts`): the `status` string together with the optional `url` and
`error` fields; `other` covers any unexpected `status` value (the
`default` branch of the switch). -/
inductive ModalStatus where
  | processing
  | completed (url : Option String)
  | errorStatus (detail : Option String)
  | other (s : String)
deriving DecidableEq

/-- Outcome of one status query as seen by the poller: either the HTTP
response was not ok (`transportFail`, carrying `response.status` and
`response.statusText`), or a parsed status payload. -/
inductive PollStep where
  | transportFail (code : Nat) (codeText : String)
  | status (s : ModalStatus)
deriving DecidableEq

/-- Outcome of the `try` body of one polling iteration: return a URL,
throw a message, or sleep and go round again (the `processing` case). -/
inductive TryOut where
  | ret (url : String)
  | thrown (msg : String)
  | again
deriving DecidableEq

/-- Body of the `try` block of `pollJobStatus` for one response.  Note the
falsy-URL check `!statusData.url` (absent or empty string) and the
JavaScript default `statusData.error || 'Job processing failed'`. -/
def tryBody : PollStep → TryOut
  | PollStep.status ModalStatus.processing => TryOut.again
  | PollStep.status (ModalStatus.completed (some url)) =>
    if url.isEmpty then
      TryOut.thrown "Completed status received but missing URL in response"
    else TryOut.ret url
  | PollStep.status (ModalStatus.completed none) =>
    TryOut.thrown "Completed status received but missing URL in response"
  | PollStep.status (ModalStatus.errorStatus d) =>
    TryOut.thrown (jsOr d "Job processing failed")
  | PollStep.status (ModalStatus.other s) =>
    TryOut.thrown ("Unexpected status: " ++ s)
  | PollStep.transportFail code codeText =>
    TryOut.thrown ("Failed to check job status: " ++ toString code ++ " " ++ codeText)

/-- The `catch` block of `pollJobStatus` rethrows immediately exactly when
the error message contains one of these three substrings. -/
def isDefinitive (msg : String) : Bool :=
  strIncludes msg "missing URL" || strIncludes msg "Unexpected status"
    || strIncludes msg "Job processing failed"

deriving instance DecidableEq for Except

/-- Trace of one run of the poller: the outcome (returned URL or thrown
error message), the number of status queries issued, and the number of
sleeps performed (each of length `intervalMs`). -/
structure PollTrace where
  result : Except String String
  queries : Nat
  delays : Nat
deriving DecidableEq

/-- Loop of `pollJobStatus`: `fuel` is `maxAttempts - attempt`.  A
`processing` response sleeps and continues (even on the last attempt); a
thrown message is rethrown immediately if definitive or if the attempt
budget is exhausted (`attempt === maxAttempts - 1`), and otherwise the
poller sleeps and retries; running out of attempts throws the timeout
error. -/
def pollAux (oracle : Nat → PollStep) : Nat → Nat → PollTrace
  | 0, _ => ⟨Except.error "Job processing timed out", 0, 0⟩
  | (n + 1), attempt =>
    match tryBody (oracle attempt) with
    | TryOut.ret url => ⟨Except.ok url, 1, 0⟩
    | TryOut.again =>
      ⟨(pollAux oracle n (attempt + 1)).result,
       (pollAux oracle n (attempt + 1)).queries + 1,
       (pollAux oracle n (attempt + 1)).delays + 1⟩
    | TryOut.thrown msg =>
      if isDefinitive msg then ⟨Except.error msg, 1, 0⟩
      else
        match n with
        | 0 => ⟨Except.error msg, 1, 0⟩
        | (m + 1) =>
          ⟨(pollAux oracle (m + 1) (attempt + 1)).result,
           (pollAux oracle (m + 1) (attempt + 1)).queries + 1,
           (pollAux oracle (m + 1) (attempt + 1)).delays + 1⟩

/-- The `pollJobStatus` helper of `route.ts`: it first checks the Modal
configuration (`MODAL_CHECK_STATUS_URL` and `MODAL_API_KEY`) and then runs
the polling loop against the status oracle for `maxAttempts` attempts. -/
def pollJobStatus (cfgOk : Bool) (oracle : Nat → PollStep) (maxAttempts : Nat) :
    PollTrace :=
  if cfgOk then pollAux oracle maxAttempts 0
  else ⟨Except.error "Modal API configuration is missing", 0, 0⟩

theorem pollAux_all_processing (oracle : Nat → PollStep) :
    ∀ (n attempt : Nat),
      (∀ i, attempt ≤ i → i < attempt + n → oracle i = PollStep.status ModalStatus.processing) →
      pollAux oracle n attempt = ⟨Except.error "Job processing timed out", n, n⟩ := by
  intro n
  induction n with
  | zero => intro attempt _; rfl
  | succ n ih =>
    intro attempt hf
    have h0 : oracle attempt = PollStep.status ModalStatus.processing :=
      hf attempt (le_refl _) (by omega)
    have ht := ih (attempt + 1) (fun i h1 h2 => hf i (by omega) (by omega))
    simp [pollAux, h0, tryBody, ht]

theorem pollAux_processing_then_completed (oracle : Nat → PollStep) (X : String)
    (hX : ¬X.isEmpty) :
    ∀ (k n attempt : Nat), k < n →
      (∀ i, attempt ≤ i → i < attempt + k → oracle i = PollStep.status ModalStatus.processing) →
      oracle (attempt + k) = PollStep.status (ModalStatus.completed (some X)) →
      pollAux oracle n attempt = ⟨Except.ok X, k + 1, k⟩ := by
  intro k
  induction k with
  | zero =>
    intro n attempt hk hf hc
    obtain ⟨m, rfl⟩ : ∃ m, n = m + 1 := ⟨n - 1, by omega⟩
    rw [Nat.add_zero] at hc
    simp [pollAux, hc, tryBody, hX]
  | succ k ih =>
    intro n attempt hk hf hc
    obtain ⟨m, rfl⟩ : ∃ m, n = m + 2 := ⟨n - 2, by omega⟩
    have h0 : oracle attempt = PollStep.status ModalStatus.processing :=
      hf attempt (le_refl _) (by omega)
    have hc' : oracle (attempt + 1 + k) = PollStep.status (ModalStatus.completed (some X)) := by
      rw [show attempt + 1 + k = attempt + (k + 1) from by omega]; exact hc
    have ht := ih (m + 1) (attempt + 1) (by omega)
      (fun i h1 h2 => hf i (by omega) (by omega)) hc'
    simp [pollAux, h0, tryBody, ht]

/-- Claim C1: behaviour of `pollJobStatus` on the three status sequences.
(1) `[processing, processing, completed(url=X)]` with a non-empty `X`
returns `X` after exactly 3 queries and 2 inter-attempt delays;
(2) `maxAttempts` consecutive `processing` responses raise the
poll-timeout error `'Job processing timed out'` after exactly
`maxAttempts` queries; (3) a first response of `completed` with no URL
raises the protocol error `'Completed status received but missing URL in
response'` immediately after 1 query and 0 delays — not the timeout
error. -/
theorem pollJobStatus_observed_sequences :
    (∀ (oracle : Nat → PollStep) (maxAttempts : Nat) (X : String),
        ¬X.isEmpty → 3 ≤ maxAttempts →
        oracle 0 = PollStep.status ModalStatus.processing →
        oracle 1 = PollStep.status ModalStatus.processing →
        oracle 2 = PollStep.status (ModalStatus.completed (some X)) →
        pollJobStatus true oracle maxAttempts = ⟨Except.ok X, 3, 2⟩)
    ∧ (∀ (oracle : Nat → PollStep) (maxAttempts : Nat),
        (∀ i, i < maxAttempts → oracle i = PollStep.status ModalStatus.processing) →
        pollJobStatus true oracle maxAttempts
          = ⟨Except.error "Job processing timed out", maxAttempts, maxAttempts⟩)
    ∧ (∀ (oracle : Nat → PollStep) (maxAttempts : Nat),
        1 ≤ maxAttempts →
        oracle 0 = PollStep.status (ModalStatus.completed none) →
        pollJobStatus true oracle maxAttempts
          = ⟨Except.error "Completed status received but missing URL in response", 1, 0⟩) := by
  refine ⟨?_, ?_, ?_⟩
  · intro oracle maxAttempts X hX h3 h0 h1 h2
    unfold pollJobStatus
    rw [if_pos rfl]
    have := pollAux_processing_then_completed oracle X hX 2 maxAttempts 0 (by omega)
      (fun i hi1 hi2 => by interval_cases i <;> assumption) (by simpa using h2)
    simpa using this
  · intro oracle maxAttempts hf
    unfold pollJobStatus
    rw [if_pos rfl]
    exact pollAux_all_processing oracle maxAttempts 0 (fun i h1 h2 => hf i (by omega))
  · intro oracle maxAttempts h1 h0
    obtain ⟨m, rfl⟩ : ∃ m, maxAttempts = m + 1 := ⟨maxAttempts - 1, by omega⟩
    unfold pollJobStatus
    rw [if_pos rfl]
    have hdef : isDefinitive "Completed status received but missing URL in response" = true := by
      decide
    simp [pollAux, h0, tryBody, hdef]

/-- Witness for C1 at concrete oracles with `maxAttempts = 60` and
`X = "https://cdn/final.mp4"`. -/
theorem pollJobStatus_observed_sequences_witness :
    pollJobStatus true
        (fun i => if i < 2 then PollStep.status ModalStatus.processing
          else PollStep.status (ModalStatus.completed (some "https://cdn/final.mp4"))) 60
      = ⟨Except.ok "https://cdn/final.mp4", 3, 2⟩
    ∧ pollJobStatus true (fun _ => PollStep.status ModalStatus.processing) 60
      = ⟨Except.error "Job processing timed out", 60, 60⟩
    ∧ pollJobStatus true (fun _ => PollStep.status (ModalStatus.completed none)) 60
      = ⟨Except.error "Completed status received but missing URL in response", 1, 0⟩ := by
  refine ⟨?_, ?_, ?_⟩
  · exact pollJobStatus_observed_sequences.1 _ 60 "https://cdn/final.mp4"
      (by decide) (by decide) (by decide) (by decide) (by decide)
  · exact pollJobStatus_observed_sequences.2.1 _ 60 (fun i _ => rfl)
  · exact pollJobStatus_observed_sequences.2.2 _ 60 (by decide) (by decide)

/-- Claim C3 (code bug): when the first status response is
`error` with detail `"bad audio"`, the thrown message is just `"bad
audio"`, which contains none of the substrings the catch block treats as
definitive, so the poller sleeps and queries again instead of failing
immediately: with a second response of `completed(url)` the run even
succeeds after 2 queries and 1 delay, contradicting the claimed immediate
terminal failure after a single query. -/
theorem pollJobStatus_error_detail_is_retried :
    pollJobStatus true
        (fun i => if i = 0 then PollStep.status (ModalStatus.errorStatus (some "bad audio"))
          else PollStep.status (ModalStatus.completed (some "https://cdn/final.mp4"))) 60
      = ⟨Except.ok "https://cdn/final.mp4", 2, 1⟩
    ∧ isDefinitive "bad audio" = false
    ∧ isDefinitive (jsOr none "Job processing failed") = true := by
  refine ⟨by decide, by decide, by decide⟩

/-! ## POST handler (`route.ts`, lines 133-283) -/

/-- Uploaded file form field: name, declared MIME type, and bytes. -/
structure FileUpload where
  name : String
  mime : String
  bytes : List Nat
deriving DecidableEq

/-- Multipart form of the request: the `'audio'` field (a file or absent)
and the `'videoUrl'` field (a string or absent). -/
structure PostRequest where
  video : Option FileUpload
  videoUrl : Option String
deriving DecidableEq

/-- JSON body of a response, as a record of the fields `route.ts` can emit
(`processedAudioUrl` models the JSON key `processedAudio`); absent keys
are `none`. -/
structure JsonBody where
  error : Option String
  originalVideo : Option String
  processedAudioUrl : Option String
  finalVideo : Option String
deriving DecidableEq

/-- An HTTP response: status code plus JSON body. -/
structure HttpResponse where
  status : Nat
  body : JsonBody
deriving DecidableEq

/-- Body `{ error: m }` of every failure response. -/
def errBody (m : String) : JsonBody :=
  { error := some m, originalVideo := none, processedAudioUrl := none, finalVideo := none }

/-- Body `{ processedAudio: a, finalVideo: f }` of the success response of
`route.ts` (note: no `originalVideo` key). -/
def successBody (a f : String) : JsonBody :=
  { error := none, originalVideo := none, processedAudioUrl := some a, finalVideo := some f }

/-- Outcome of one ElevenLabs isolation attempt as seen by the wrapped
operation: a thrown failure, an abort of the 5-minute per-attempt timeout,
a falsy (`null`/`undefined`) result, or a present stream of chunks (which
may carry zero bytes). -/
inductive IsoOutcome where
  | fail (msg : String)
  | abortTimeout
  | nullResult
  | stream (chunks : List (List Nat))
deriving DecidableEq

/-- A thrown JavaScript `Error`: its `name` and `message`. -/
structure JsError where
  name : String
  message : String
deriving DecidableEq

/-- Response of the Modal `start_merge` endpoint: either a non-ok HTTP
response (whose text is interpolated into the thrown message) or an ok
JSON body with an optional `job_id`. -/
inductive MergeSubmitResp where
  | notOk (errorText : String)
  | okResp (jobId : Option String)
deriving DecidableEq

/-- One external call performed by the handler, for the call trace. -/
inductive ExtCall where
  | fetchVideoCall (url : String)
  | s3PutCall (cmd : PutObjectCommand)
  | isolationCall (attempt : Nat)
  | startMergeCall (videoUrl audioUrl : String)
  | statusQueryCall (attempt : Nat)
deriving DecidableEq

/-- Environment of external collaborators and ambient state of one
request: configuration presence, S3 configuration, the two `Date.now()`
reads, and deterministic oracles for URL parsing (the WHATWG `new URL`
built-in, returning the pathname of a valid URL), the video fetch, the
isolation attempts, S3 sends (`some msg` models a rejection), the merge
submission and the status polls. -/
structure Env where
  hasElevenKey : Bool
  hasModalStart : Bool
  hasCheckStatus : Bool
  s3cfg : S3Config
  nowOrig : Nat
  nowAudio : Nat
  parseUrl : String → Option String
  fetchVideo : String → Option (List Nat)
  isolation : Nat → IsoOutcome
  s3Send : PutObjectCommand → Option String
  startMerge : String → String → MergeSubmitResp
  pollOracle : Nat → PollStep

/-- The operation passed to `retry` for ElevenLabs processing (lines
205-221): a falsy result throws `'No audio received from ElevenLabs'`; a
present stream is returned as is — there is no check on its length. -/
def isoOp (env : Env) (k : Nat) : Except JsError (List (List Nat)) :=
  match env.isolation k with
  | IsoOutcome.fail m => Except.error ⟨"Error", m⟩
  | IsoOutcome.abortTimeout => Except.error ⟨"AbortError", "The operation was aborted"⟩
  | IsoOutcome.nullResult => Except.error ⟨"Error", "No audio received from ElevenLabs"⟩
  | IsoOutcome.stream chunks => Except.ok chunks

/-- The `.catch` after `retry` (lines 225-231): an `AbortError` becomes
the 5-minute timeout message, any other last error is wrapped with the
attempt count (`MAX_RETRIES = 3`). -/
def mapIsoError : Option JsError → String
  | some e =>
    if e.name = "AbortError" then "ElevenLabs processing timed out after 5 minutes"
    else "ElevenLabs audio processing failed after 3 attempts: " ++ e.message
  | none => "ElevenLabs audio processing failed after 3 attempts: undefined"

/-- `streamToBuffer`: concatenate the chunks of the stream. -/
def streamToBuffer (chunks : List (List Nat)) : List Nat :=
  chunks.flatten

/-- Trace entries for the isolation attempts 1..n. -/
def isolationCalls (n : Nat) : List ExtCall :=
  (List.range n).map (fun k => ExtCall.isolationCall (k + 1))

/-- Trace entries for the status queries 0..n-1. -/
def statusQueryCalls (n : Nat) : List ExtCall :=
  (List.range n).map ExtCall.statusQueryCall

/-- Outcome of the `try` block of `POST`: an explicit `return` of a
response (the 400s and the final success), or a thrown error that the
`catch` turns into a 500. -/
inductive PostOutcome where
  | resp (r : HttpResponse)
  | thrown (msg : String)
deriving DecidableEq

/-- Pipeline tail shared by both input branches (lines 202-272): isolation
with retry, processed-audio upload, merge submission, polling, success
response. -/
def afterInput (env : Env) (finalVideoUrl fileName : String) (calls0 : List ExtCall) :
    PostOutcome × List ExtCall :=
  let t := retry (isoOp env) 3 5000
  let calls1 := calls0 ++ isolationCalls t.calls
  match t.result with
  | Except.error e => (PostOutcome.thrown (mapIsoError e), calls1)
  | Except.ok chunks =>
    let audioBuffer := streamToBuffer chunks
    let audioFileName := toString env.nowAudio ++ "-processed-" ++ stripExt fileName ++ ".wav"
    let cmd := uploadToS3Command env.s3cfg audioBuffer ("processed-audio/" ++ audioFileName)
    match env.s3Send cmd with
    | some errMsg => (PostOutcome.thrown errMsg, calls1 ++ [ExtCall.s3PutCall cmd])
    | none =>
      let audioUrl := uploadToS3Url env.s3cfg ("processed-audio/" ++ audioFileName)
      let calls2 := calls1 ++ [ExtCall.s3PutCall cmd, ExtCall.startMergeCall finalVideoUrl audioUrl]
      match env.startMerge finalVideoUrl audioUrl with
      | MergeSubmitResp.notOk errorText =>
        (PostOutcome.thrown ("Failed to start video merge job: " ++ errorText), calls2)
      | MergeSubmitResp.okResp jobId =>
        if truthyStr jobId then
          let pt := pollJobStatus env.hasCheckStatus env.pollOracle 60
          let calls3 := calls2 ++ statusQueryCalls pt.queries
          match pt.result with
          | Except.error m => (PostOutcome.thrown m, calls3)
          | Except.ok finalUrl =>
            (PostOutcome.resp ⟨200, successBody audioUrl finalUrl⟩, calls3)
        else (PostOutcome.thrown "No job ID received from Modal API", calls2)

/-- Accepted URL extensions (lowercased). -/
def validExts : List String := ["mp4", "mov", "avi"]

/-- Accepted MIME types of `isValidVideoFile`. -/
def validTypes : List String := ["video/mp4", "video/quicktime", "video/x-msvideo"]

/-- `isValidVideoFile` of `route.ts`. -/
def isValidVideoFile (f : FileUpload) : Bool :=
  validTypes.contains f.mime

/-- URL input branch (lines 154-183 plus the shared tail): validate the
URL shape and extension, fetch the bytes, then run the pipeline with
`finalVideoUrl = videoUrl`;  the later filename computation (line 237)
takes the last path segment of the same parsed URL, defaulting to
`'video'`. -/
def urlBranch (env : Env) (u : String) : PostOutcome × List ExtCall :=
  match env.parseUrl u with
  | none => (PostOutcome.resp ⟨400, errBody "Invalid URL format"⟩, [])
  | some pathname =>
    let extension := asciiLower ((jsSplit pathname '.').getLastD "")
    if extension.isEmpty || !(validExts.contains extension) then
      (PostOutcome.resp
        ⟨400, errBody "Invalid video URL. URL must point to an MP4, MOV, or AVI file"⟩, [])
    else
      match env.fetchVideo u with
      | none =>
        (PostOutcome.resp
          ⟨400, errBody "Failed to access video URL. Please ensure the URL is publicly accessible."⟩,
         [ExtCall.fetchVideoCall u])
      | some _blob =>
        let lastSeg := (jsSplit pathname '/').getLastD ""
        let fileName := if lastSeg.isEmpty then "video" else lastSeg
        afterInput env u fileName [ExtCall.fetchVideoCall u]

/-- Uploaded-file branch (lines 184-200 plus the shared tail): validate
the MIME type, upload the original to S3 under
`original-videos/{ts}-original-{name}` (the upload sets `finalVideoUrl`),
then run the pipeline with `fileName = video.name`. -/
def fileBranch (env : Env) (f : FileUpload) : PostOutcome × List ExtCall :=
  if !isValidVideoFile f then
    (PostOutcome.resp
      ⟨400, errBody "Invalid file type. Please upload a video file (MP4, MOV, or AVI)"⟩, [])
  else
    let originalVideoName := toString env.nowOrig ++ "-original-" ++ f.name
    let cmd := uploadToS3Command env.s3cfg f.bytes ("original-videos/" ++ originalVideoName)
    match env.s3Send cmd with
    | some errMsg => (PostOutcome.thrown errMsg, [ExtCall.s3PutCall cmd])
    | none =>
      let finalVideoUrl := uploadToS3Url env.s3cfg ("original-videos/" ++ originalVideoName)
      afterInput env finalVideoUrl f.name [ExtCall.s3PutCall cmd]

/-- The `try` block of `POST`: configuration checks (thrown), the
no-input 400, then the branch on a truthy `videoUrl` (when both a file
and a truthy URL are supplied, the URL branch is taken and the file is
ignored). -/
def postRun (env : Env) (req : PostRequest) : PostOutcome × List ExtCall :=
  if !env.hasElevenKey then
    (PostOutcome.thrown "ELEVEN_LABS_API_KEY is not set in the environment variables", [])
  else if !env.hasModalStart then
    (PostOutcome.thrown "Modal API configuration is missing", [])
  else
    match req.videoUrl with
    | some u =>
      if u.isEmpty then
        match req.video with
        | some f => fileBranch env f
        | none => (PostOutcome.resp ⟨400, errBody "No video file or URL provided"⟩, [])
      else urlBranch env u
    | none =>
      match req.video with
      | some f => fileBranch env f
      | none => (PostOutcome.resp ⟨400, errBody "No video file or URL provided"⟩, [])

/-- The `catch` block of `POST`: an explicit return passes through, every
thrown error is flattened to `{ error: message }` with HTTP status 500. -/
def postResponse : PostOutcome → HttpResponse
  | PostOutcome.resp r => r
  | PostOutcome.thrown m => ⟨500, errBody m⟩

/-- The full `POST` handler: the `try` block wrapped in the `catch`. -/
def POST (env : Env) (req : PostRequest) : HttpResponse × List ExtCall :=
  (postResponse (postRun env req).1, (postRun env req).2)

/-! ## Shape of the handler's outcomes -/

/-- Messages of the five explicit 400 (input validation) responses. -/
def validationMsgs : List String :=
  ["No video file or URL provided",
   "Invalid URL format",
   "Invalid video URL. URL must point to an MP4, MOV, or AVI file",
   "Failed to access video URL. Please ensure the URL is publicly accessible.",
   "Invalid file type. Please upload a video file (MP4, MOV, or AVI)"]

/-- Every outcome of the `try` block is a thrown error, one of the five
validation 400s, or the two-field success response. -/
def outcomeShape (o : PostOutcome) : Prop :=
  (∃ m, o = PostOutcome.thrown m)
    ∨ (∃ m, m ∈ validationMsgs ∧ o = PostOutcome.resp ⟨400, errBody m⟩)
    ∨ (∃ a f, o = PostOutcome.resp ⟨200, successBody a f⟩)

theorem afterInput_shape (env : Env) (v fn : String) (c : List ExtCall) :
    outcomeShape (afterInput env v fn c).1 := by
  unfold outcomeShape afterInput
  repeat' (first | dsimp only | split)
  all_goals first
    | exact Or.inl ⟨_, rfl⟩
    | exact Or.inr (Or.inr ⟨_, _, rfl⟩)

theorem urlBranch_shape (env : Env) (u : String) :
    outcomeShape (urlBranch env u).1 := by
  unfold urlBranch
  repeat' (first | dsimp only | split)
  all_goals first
    | exact afterInput_shape _ _ _ _
    | (refine Or.inr (Or.inl ⟨_, ?_, rfl⟩); decide)

theorem fileBranch_shape (env : Env) (f : FileUpload) :
    outcomeShape (fileBranch env f).1 := by
  unfold fileBranch
  repeat' (first | dsimp only | split)
  all_goals first
    | exact afterInput_shape _ _ _ _
    | exact Or.inl ⟨_, rfl⟩
    | (refine Or.inr (Or.inl ⟨_, ?_, rfl⟩); decide)

theorem postRun_shape (env : Env) (req : PostRequest) :
    outcomeShape (postRun env req).1 := by
  unfold postRun
  repeat' (first | dsimp only | split)
  all_goals first
    | exact fileBranch_shape _ _
    | exact urlBranch_shape _ _
    | exact Or.inl ⟨_, rfl⟩
    | (refine Or.inr (Or.inl ⟨_, ?_, rfl⟩); decide)

/-- Environment in which every external collaborator succeeds: URL parsing
yields `/videos/clip.mp4`, the fetch returns bytes, isolation succeeds on
the first attempt, S3 accepts every put, merge submission returns job id
`abc123`, and polling reports `processing` once and then `completed`. -/
def happyEnv : Env :=
  { hasElevenKey := true
    hasModalStart := true
    hasCheckStatus := true
    s3cfg := ⟨"bkt", "us-east-1"⟩
    nowOrig := 1700
    nowAudio := 1701
    parseUrl := fun _ => some "/videos/clip.mp4"
    fetchVideo := fun _ => some [1, 2, 3]
    isolation := fun _ => IsoOutcome.stream [[7, 7]]
    s3Send := fun _ => none
    startMerge := fun _ _ => MergeSubmitResp.okResp (some "abc123")
    pollOracle := fun i => if i = 0 then PollStep.status ModalStatus.processing
      else PollStep.status (ModalStatus.completed (some "https://cdn/final.mp4")) }

/-- A valid uploaded MP4 file. -/
def testFile : FileUpload :=
  ⟨"clip.mp4", "video/mp4", [9, 9]⟩

/-- Request supplying only the uploaded file. -/
def fileReq : PostRequest :=
  ⟨some testFile, none⟩

/-- Claim C7: every failing run of `POST` responds with a body that is
exactly `{ error: message }` — in particular the `originalVideo`,
`processedAudio` and `finalVideo` fields produced by earlier stages are
all absent — and its status is 500, or 400 when the failure is one of the
five input-validation rejections. -/
theorem post_failure_response_shape (env : Env) (req : PostRequest)
    (h : (POST env req).1.status ≠ 200) :
    ∃ m, (POST env req).1.body = errBody m
      ∧ ((POST env req).1.status = 500
         ∨ ((POST env req).1.status = 400 ∧ m ∈ validationMsgs)) := by
  rcases postRun_shape env req with ⟨m, hm⟩ | ⟨m, hmem, hm⟩ | ⟨a, f, hm⟩
  · exact ⟨m, by simp [POST, hm, postResponse], Or.inl (by simp [POST, hm, postResponse])⟩
  · exact ⟨m, by simp [POST, hm, postResponse],
      Or.inr ⟨by simp [POST, hm, postResponse], hmem⟩⟩
  · exact absurd (by simp [POST, hm, postResponse]) h

/-- Witness for C7 at the concrete failing run with no input supplied. -/
theorem post_failure_response_shape_witness :
    (POST happyEnv ⟨none, none⟩).1.status ≠ 200
    ∧ ∃ m, (POST happyEnv ⟨none, none⟩).1.body = errBody m
      ∧ ((POST happyEnv ⟨none, none⟩).1.status = 500
         ∨ ((POST happyEnv ⟨none, none⟩).1.status = 400 ∧ m ∈ validationMsgs)) :=
  ⟨by decide, post_failure_response_shape happyEnv ⟨none, none⟩ (by decide)⟩

/-- Claim C4 counterexample: a request supplying BOTH an uploaded file and
a remote URL is not rejected with a 400 validation error — the handler
proceeds down the URL branch, performs network calls (the remote fetch
first) and here completes with status 200. -/
theorem post_both_inputs_not_rejected :
    (POST happyEnv ⟨some testFile, some "https://host/videos/clip.mp4"⟩).1.status = 200
    ∧ (POST happyEnv ⟨some testFile, some "https://host/videos/clip.mp4"⟩).2
        ≠ ([] : List ExtCall)
    ∧ ExtCall.fetchVideoCall "https://host/videos/clip.mp4"
        ∈ (POST happyEnv ⟨some testFile, some "https://host/videos/clip.mp4"⟩).2 := by
  refine ⟨by decide, by decide, by decide⟩

/-- Claim C4 (amended): in a configured environment, a request supplying
neither a file nor a truthy URL fails with the 400 validation error before
any external call is made; a request supplying BOTH inputs is not
rejected — it behaves exactly like the same request with the file field
dropped (the URL branch ignores the file). -/
theorem post_input_validation_amended :
    (∀ (env : Env) (req : PostRequest),
        env.hasElevenKey = true → env.hasModalStart = true →
        req.video = none → truthyStr req.videoUrl = false →
        POST env req
          = (⟨400, errBody "No video file or URL provided"⟩, ([] : List ExtCall)))
    ∧ (∀ (env : Env) (f : FileUpload) (u : String), u.isEmpty = false →
        POST env ⟨some f, some u⟩ = POST env ⟨none, some u⟩) := by
  constructor
  · intro env req h1 h2 h3 h4
    rcases req with ⟨v, url⟩
    simp only at h3 h4
    subst h3
    rcases url with _ | u
    · simp [POST, postRun, postResponse, h1, h2]
    · have hu : u.isEmpty = true := by
        simpa [truthyStr] using h4
      simp [POST, postRun, postResponse, h1, h2, hu]
  · intro env f u hu
    by_cases hk : env.hasElevenKey <;> by_cases hm : env.hasModalStart <;>
      simp [POST, postRun, hk, hm, hu]

/-- Witness for C4's amended statement: the empty request is rejected with
no calls, and the both-inputs request equals the URL-only request. -/
theorem post_input_validation_amended_witness :
    POST happyEnv ⟨none, none⟩
      = (⟨400, errBody "No video file or URL provided"⟩, ([] : List ExtCall))
    ∧ POST happyEnv ⟨some testFile, some "https://host/videos/clip.mp4"⟩
      = POST happyEnv ⟨none, some "https://host/videos/clip.mp4"⟩ :=
  ⟨post_input_validation_amended.1 happyEnv ⟨none, none⟩ rfl rfl rfl rfl,
   post_input_validation_amended.2 happyEnv testFile "https://host/videos/clip.mp4" (by decide)⟩

/-- Claim C6 counterexample: a fully successful run on an uploaded-file
input returns status 200 with `processedAudio` and `finalVideo` set but NO
`originalVideo` field (the returned `processedAudio` URL also exhibits the
doubled `processed-audio/` prefix of C5). -/
theorem post_success_lacks_originalVideo :
    (POST happyEnv fileReq).1.status = 200
    ∧ (POST happyEnv fileReq).1.body.originalVideo = none
    ∧ (POST happyEnv fileReq).1.body.processedAudioUrl
        = some "https://bkt.s3.us-east-1.amazonaws.com/processed-audio/processed-audio/1701-processed-clip.wav"
    ∧ (POST happyEnv fileReq).1.body.finalVideo = some "https://cdn/final.mp4" := by
  refine ⟨by decide, by decide, by decide, by decide⟩

/-- Claim C6 (amended): every successful run of `route.ts`'s handler —
uploaded file or URL — returns exactly the two fields `processedAudio`
and `finalVideo`; `originalVideo` is never included. -/
theorem post_success_body_shape (env : Env) (req : PostRequest)
    (h : (POST env req).1.status = 200) :
    ∃ a f, (POST env req).1.body = successBody a f
      ∧ (POST env req).1.body.originalVideo = none := by
  rcases postRun_shape env req with ⟨m, hm⟩ | ⟨m, hmem, hm⟩ | ⟨a, f, hm⟩
  · exact absurd h (by simp [POST, hm, postResponse])
  · exact absurd h (by simp [POST, hm, postResponse])
  · exact ⟨a, f, by simp [POST, hm, postResponse],
      by simp [POST, hm, postResponse, successBody]⟩

/-- Witness for C6's amended statement at the successful uploaded-file
run. -/
theorem post_success_body_shape_witness :
    (POST happyEnv fileReq).1.status = 200
    ∧ ∃ a f, (POST happyEnv fileReq).1.body = successBody a f
      ∧ (POST happyEnv fileReq).1.body.originalVideo = none :=
  ⟨by decide, post_success_body_shape happyEnv fileReq (by decide)⟩

/-- Environment identical to `happyEnv` except that every isolation
attempt returns a present stream carrying zero bytes. -/
def emptyStreamEnv : Env :=
  { happyEnv with isolation := fun _ => IsoOutcome.stream [] }

/-- Environment identical to `happyEnv` except that the first isolation
attempt returns a falsy result and the second a stream. -/
def nullThenStreamEnv : Env :=
  { happyEnv with isolation := fun k =>
      if k = 1 then IsoOutcome.nullResult else IsoOutcome.stream [[7]] }

/-- Claim C8 counterexample: a present stream with zero bytes is NOT
failed with the empty-result error — the attempt succeeds immediately
(one single isolation call) and the whole run completes with status 200,
uploading a zero-byte object. -/
theorem isolation_empty_stream_accepted :
    isoOp emptyStreamEnv 1 = Except.ok []
    ∧ (retry (isoOp emptyStreamEnv) 3 5000).calls = 1
    ∧ (POST emptyStreamEnv fileReq).1.status = 200 := by
  refine ⟨rfl, by decide, by decide⟩

/-- Claim C8 (amended): a falsy (`null`/absent) isolation result fails the
attempt with the empty-result error `'No audio received from ElevenLabs'`
and is subject to retry (a null first attempt followed by a stream yields
success after 2 calls and 1 delay), but a present zero-byte stream is
accepted as a successful result — the code checks only `!result`, not the
stream's length. -/
theorem isolation_null_vs_empty :
    (∀ (env : Env) (k : Nat), env.isolation k = IsoOutcome.nullResult →
        isoOp env k = Except.error ⟨"Error", "No audio received from ElevenLabs"⟩)
    ∧ (∀ (env : Env) (k : Nat) (chunks : List (List Nat)),
        env.isolation k = IsoOutcome.stream chunks →
        isoOp env k = Except.ok chunks)
    ∧ (∀ (env : Env) (D : Nat) (chunks : List (List Nat)),
        env.isolation 1 = IsoOutcome.nullResult →
        env.isolation 2 = IsoOutcome.stream chunks →
        retry (isoOp env) 3 D = ⟨Except.ok chunks, 2, [D]⟩) := by
  refine ⟨?_, ?_, ?_⟩
  · intro env k hk
    simp [isoOp, hk]
  · intro env k chunks hk
    simp [isoOp, hk]
  · intro env D chunks h1 h2
    have h1' : isoOp env 1
        = Except.error ⟨"Error", "No audio received from ElevenLabs"⟩ := by
      simp [isoOp, h1]
    have h2' : isoOp env 2 = Except.ok chunks := by
      simp [isoOp, h2]
    have := retryAux_ok (isoOp env) D
      (fun _ => ⟨"Error", "No audio received from ElevenLabs"⟩) chunks 1 3 1 none
      (by omega)
      (fun i hi1 hi2 => by
        have : i = 1 := by omega
        subst this
        exact h1')
      (by simpa using h2')
    simpa [retry] using this

/-- Witness for C8's amended statement at concrete environments. -/
theorem isolation_null_vs_empty_witness :
    isoOp nullThenStreamEnv 1
      = Except.error ⟨"Error", "No audio received from ElevenLabs"⟩
    ∧ isoOp nullThenStreamEnv 2 = Except.ok [[7]]
    ∧ retry (isoOp nullThenStreamEnv) 3 5000 = ⟨Except.ok [[7]], 2, [5000]⟩ :=
  ⟨isolation_null_vs_empty.1 nullThenStreamEnv 1 rfl,
   isolation_null_vs_empty.2.1 nullThenStreamEnv 2 [[7]] rfl,
   isolation_null_vs_empty.2.2 nullThenStreamEnv 5000 [[7]] rfl rfl⟩
